import Mathlib

/-
Shallow embedding of the finance dashboard front-end:
  src/static/enhanced_app.js  (enhanced dashboard: fetchStockData, panel
    updaters, renderPriceChart, renderIndicatorChart, tab/submit handlers)
  src/static/app.js           (simple dashboard: fetchStock, renderChart,
    submit handler)
JavaScript values that the code treats by truthiness are modelled
explicitly: optional strings as Option String with the empty string falsy,
numeric fields that may be null/undefined as an inductive JNum carrying
null, undefined, NaN and rational numbers.  Math.random is modelled as an
explicit stream (a function from draw index to rational) with a cursor in
the application state.  Locale- and float-specific number formatting
(toLocaleString, toFixed) is modelled by exact rational rendering; no
theorem below depends on its digits, only on whether the marker string
N/A is produced.  Chart.js widgets are modelled as a record of the data
actually passed to the constructor (labels, dataset labels and values,
colors, fill flag, titles); fixed style constants such as borderWidth and
axis display options are omitted as unobserved constants.  A chart slot
also carries a live-instance counter so that the create/destroy lifecycle
is visible.
-/

namespace FinanceWeb

/-- JavaScript numeric slot: null, undefined, NaN or a number
(numbers modelled as rationals). -/
inductive JNum where
  | null : JNum
  | undef : JNum
  | nan : JNum
  | num : ℚ → JNum
deriving DecidableEq

/-- JavaScript multiplication by 100 as applied to a possibly-missing
field (stockInfo.dividend_yield * 100): null coerces to 0, undefined
yields NaN, NaN stays NaN. -/
def jsMul100 : JNum → JNum
  | .null => .num 0
  | .undef => .nan
  | .nan => .nan
  | .num q => .num (q * 100)

/-- Truthiness of an optional string field (JS `x` / `data.error` tests):
absent and the empty string are falsy. -/
def truthyStr : Option String → Bool
  | none => false
  | some s => !(s == "")

/-- Model of JS String.prototype.trim: strip leading and trailing
whitespace. -/
def jsTrim (s : String) : String :=
  String.mk (((s.data.dropWhile Char.isWhitespace).reverse.dropWhile Char.isWhitespace).reverse)

/-- JS `x || d` for an optional string: the default replaces both an
absent value and the (falsy) empty string. -/
def strOr (v : Option String) (d : String) : String :=
  match v with
  | none => d
  | some s => if s == "" then d else s

/-- Pad a digit string on the left with zeros up to width f. -/
def padLeftZeros (f : Nat) (s : String) : String :=
  if s.length ≥ f then s else String.mk (List.replicate (f - s.length) '0') ++ s

/-- Model of Number.prototype.toFixed(f): round to f decimal places,
ties away from zero upwards (the larger n), rendered with sign, integer
part and exactly f fractional digits. -/
def toFixedDigits (f : Nat) (q : ℚ) : String :=
  let scaled : ℤ := Int.floor (q * (10 : ℚ) ^ f + 1 / 2)
  let sign := if scaled < 0 then "-" else ""
  let n := scaled.natAbs
  if f = 0 then sign ++ toString n
  else sign ++ toString (n / 10 ^ f) ++ "." ++ padLeftZeros f (toString (n % 10 ^ f))

/-- Model of Number.prototype.toLocaleString(): locale formatting is a
browser concern; modelled as the canonical rational rendering.  Claims
below depend only on it never being the marker string N/A. -/
def toLocaleStringModel (q : ℚ) : String := toString q

/-- enhanced_app.js lines 160-166, formatValue: null, undefined and 0 all
render as N/A; any other number is locale-rendered with the suffix (so
NaN renders as NaN plus the suffix).  The non-number string fallthrough
of the source is omitted: the numeric fields it is applied to arrive as
numbers (spec section 4.1). -/
def formatValue (v : JNum) (suffix : String) : String :=
  match v with
  | .null => "N/A"
  | .undef => "N/A"
  | .nan => "NaN" ++ suffix
  | .num q => if q = 0 then "N/A" else toLocaleStringModel q ++ suffix

/-- enhanced_app.js lines 168-174, formatMarketCap: falsy values (null,
undefined, NaN, 0) render N/A; otherwise scaled to T/B/M with two
decimals, else locale-rendered with a dollar sign. -/
def formatMarketCap (v : JNum) : String :=
  match v with
  | .null => "N/A"
  | .undef => "N/A"
  | .nan => "N/A"
  | .num q =>
    if q = 0 then "N/A"
    else if q > 10 ^ 12 then "$" ++ toFixedDigits 2 (q / 10 ^ 12) ++ "T"
    else if q > 10 ^ 9 then "$" ++ toFixedDigits 2 (q / 10 ^ 9) ++ "B"
    else if q > 10 ^ 6 then "$" ++ toFixedDigits 2 (q / 10 ^ 6) ++ "M"
    else "$" ++ toLocaleStringModel q

/-- One row of /api/stock_data's data array. -/
structure DataPoint where
  date : String
  close : ℚ
  volume : ℚ
deriving DecidableEq

/-- One row of the optional rsi array. -/
structure RsiPoint where
  value : ℚ
deriving DecidableEq

/-- The stock_info object: optional string fields plus numeric fields
that may be null or undefined (the source field named for the
price-earnings quotient is called peRatioVal here). -/
structure StockInfo where
  error : Option String
  name : Option String
  sector : Option String
  market_cap : JNum
  peRatioVal : JNum
  dividend_yield : JNum
  beta : JNum
  price : JNum
  exchange : Option String
deriving DecidableEq

/-- The technical_indicators.signals object. -/
structure TradeSignals where
  overall_signal : String
  signal_strength : ℚ
  signals : Option (List String)
deriving DecidableEq

/-- The technical_indicators object. -/
structure TechIndicators where
  summary : Option String
  signals : Option TradeSignals
deriving DecidableEq

/-- Parsed JSON body of /api/stock_data.  data is required by the API
contract (spec section 6); stock_info, technical_indicators, rsi and
analysis may be absent.  Note there is no macd series field: the backend
never supplies one. -/
structure Body where
  symbol : String
  period : String
  error : Option String
  data : List DataPoint
  rsi : Option (List RsiPoint)
  stock_info : Option StockInfo
  technical_indicators : Option TechIndicators
  analysis : Option String
deriving DecidableEq

/-- One dataset handed to the Chart constructor. -/
structure Dataset where
  label : String
  data : List ℚ
  borderColor : String
  fill : Bool
deriving DecidableEq

/-- The observable content of a Chart.js widget: labels, datasets and
titles actually passed to the constructor. -/
structure Chart where
  labels : List String
  datasets : List Dataset
  title : String
  yAxisTitle : String
deriving DecidableEq

/-- The whole mutable browser state touched by enhanced_app.js: the
window.currentStockData global, the status line (CSS class and text),
the four panel innerHTML strings, the two chart slots with their
live-instance counters, the selected indicator global and active tab,
and the Math.random stream with its cursor. -/
structure AppState where
  currentStockData : Option Body
  statusClass : String
  statusText : String
  stockInfoBox : String
  technicalSummary : String
  tradingSignals : String
  analysisBox : String
  priceChart : Option Chart
  indicatorChart : Option Chart
  currentIndicator : String
  activeTab : String
  livePrice : Nat
  liveIndicator : Nat
  rngStream : Nat → ℚ
  rngPos : Nat

/-- Initial globals of enhanced_app.js lines 1-4: no charts, indicator
rsi, no stored data. -/
def initState : AppState :=
  { currentStockData := none
    statusClass := ""
    statusText := ""
    stockInfoBox := ""
    technicalSummary := ""
    tradingSignals := ""
    analysisBox := ""
    priceChart := none
    indicatorChart := none
    currentIndicator := "rsi"
    activeTab := "rsi"
    livePrice := 0
    liveIndicator := 0
    rngStream := fun _ => 0
    rngPos := 0 }

/-- A div of CSS class loading holding the given text (the placeholder
shape used by every panel message in enhanced_app.js). -/
def loadingDiv (t : String) : String :=
  "<div class=\"loading\">" ++ t ++ "</div>"

/-- The rendered values of the stock-info panel fields, before HTML
assembly (peRatioStr renders the source field named for the
price-earnings quotient). -/
structure RenderedStockInfo where
  nameStr : String
  sectorStr : String
  marketCapStr : String
  peRatioStr : String
  dividendYieldStr : String
  betaStr : String
  priceStr : String
  exchangeStr : String
deriving DecidableEq

/-- enhanced_app.js lines 176-209: how each stock-info field value is
rendered.  name, sector and exchange use the JS or-default; the dividend
yield is multiplied by 100 before formatValue with suffix percent; the
price gets a literal dollar sign in the template, outside formatValue. -/
def renderStockInfo (si : StockInfo) : RenderedStockInfo :=
  { nameStr := strOr si.name "N/A"
    sectorStr := strOr si.sector "N/A"
    marketCapStr := formatMarketCap si.market_cap
    peRatioStr := formatValue si.peRatioVal ""
    dividendYieldStr := formatValue (jsMul100 si.dividend_yield) "%"
    betaStr := formatValue si.beta ""
    priceStr := formatValue si.price ""
    exchangeStr := strOr si.exchange "N/A" }

/-- One info-item div of the stock-info panel (insignificant template
whitespace omitted). -/
def infoItem (label val : String) : String :=
  "<div class=\"info-item\"><span class=\"info-label\">" ++ label ++
    "</span><span class=\"info-value\">" ++ val ++ "</span></div>"

/-- The assembled innerHTML of the stock-info panel. -/
def stockInfoHtml (r : RenderedStockInfo) : String :=
  infoItem "公司名称:" r.nameStr ++
  infoItem "行业:" r.sectorStr ++
  infoItem "市值:" r.marketCapStr ++
  infoItem "市盈率:" r.peRatioStr ++
  infoItem "股息率:" r.dividendYieldStr ++
  infoItem "Beta系数:" r.betaStr ++
  infoItem "当前价格:" ("$" ++ r.priceStr) ++
  infoItem "交易所:" r.exchangeStr

/-- enhanced_app.js lines 152-212, updateStockInfo: an absent stock_info
or one whose error field is truthy shows the unavailable placeholder,
otherwise the assembled info items. -/
def updateStockInfo (st : AppState) (si : Option StockInfo) : AppState :=
  match si with
  | none => { st with stockInfoBox := loadingDiv "股票信息不可用" }
  | some info =>
    if truthyStr info.error then { st with stockInfoBox := loadingDiv "股票信息不可用" }
    else { st with stockInfoBox := stockInfoHtml (renderStockInfo info) }

/-- enhanced_app.js lines 214-217, updateTechnicalSummary: a falsy
summary falls back to the no-data text, wrapped in a pre tag. -/
def updateTechnicalSummary (st : AppState) (summary : Option String) : AppState :=
  { st with technicalSummary := "<pre>" ++ strOr summary "暂无技术分析数据" ++ "</pre>" }

/-- enhanced_app.js lines 227-231, getSignalClass. -/
def getSignalClass (s : String) : String :=
  if s == "bullish" then "signal-bullish"
  else if s == "bearish" then "signal-bearish"
  else "signal-neutral"

/-- enhanced_app.js lines 233-237, getSignalIcon. -/
def getSignalIcon (s : String) : String :=
  if s == "bullish" then "↗" else if s == "bearish" then "↘" else "→"

/-- One signal-item div for an individual signal string. -/
def signalItemHtml (s : String) : String :=
  "<div class=\"signal-item\"><div class=\"signal-icon signal-neutral\">•</div><div>" ++
    s ++ "</div></div>"

/-- The overall-signal header div of the signals panel. -/
def overallSignalHtml (sg : TradeSignals) : String :=
  "<div class=\"signal-item\"><div class=\"signal-icon " ++ getSignalClass sg.overall_signal ++
    "\">" ++ getSignalIcon sg.overall_signal ++ "</div><div><strong>总体信号: " ++
    sg.overall_signal ++ "</strong><br><small>信号强度: " ++
    toFixedDigits 1 (sg.signal_strength * 100) ++ "%</small></div></div>"

/-- enhanced_app.js lines 219-264, updateTradingSignals: absent signals
object or absent inner signals array shows the no-signal placeholder;
otherwise the overall header followed by one item per signal string (an
empty array contributes nothing, matching the length guard). -/
def updateTradingSignals (st : AppState) (sig : Option TradeSignals) : AppState :=
  match sig with
  | none => { st with tradingSignals := loadingDiv "暂无交易信号" }
  | some sg =>
    match sg.signals with
    | none => { st with tradingSignals := loadingDiv "暂无交易信号" }
    | some list =>
      { st with tradingSignals := overallSignalHtml sg ++ String.join (list.map signalItemHtml) }

/-- enhanced_app.js lines 266-269, updateAnalysis. -/
def updateAnalysis (st : AppState) (analysis : Option String) : AppState :=
  { st with analysisBox := "<pre>" ++ strOr analysis "暂无分析数据" ++ "</pre>" }

/-- Dispose of the live widget in the price-chart slot if any
(priceChart.destroy() of enhanced_app.js lines 274-276). -/
def destroyPrice (st : AppState) : AppState :=
  match st.priceChart with
  | some _ => { st with priceChart := none, livePrice := st.livePrice - 1 }
  | none => st

/-- Dispose of the live widget in the indicator-chart slot if any
(indicatorChart.destroy() of enhanced_app.js lines 335-337). -/
def destroyIndicator (st : AppState) : AppState :=
  match st.indicatorChart with
  | some _ => { st with indicatorChart := none, liveIndicator := st.liveIndicator - 1 }
  | none => st

/-- enhanced_app.js lines 271-330, renderPriceChart: destroy any previous
widget, then build a line chart of the close prices over the dates. -/
def renderPriceChart (st : AppState) (data : Body) : AppState :=
  let st := destroyPrice st
  let c : Chart :=
    { labels := data.data.map (fun it => it.date)
      datasets := [{ label := data.symbol ++ " 收盘价"
                     data := data.data.map (fun it => it.close)
                     borderColor := "#2a5298"
                     fill := true }]
      title := data.symbol ++ " 价格走势 (" ++ data.period ++ ")"
      yAxisTitle := "价格 ($)" }
  { st with priceChart := some c, livePrice := st.livePrice + 1 }

/-- n successive values of a random stream starting at a cursor. -/
def rngDrawList (stream : Nat → ℚ) (pos n : Nat) : List ℚ :=
  match n with
  | 0 => []
  | Nat.succ m => stream pos :: rngDrawList stream (pos + 1) m

/-- Consume n values from the Math.random stream, in order. -/
def rngDraw (st : AppState) (n : Nat) : List ℚ × AppState :=
  (rngDrawList st.rngStream st.rngPos n, { st with rngPos := st.rngPos + n })

/-- Install a freshly constructed widget in the indicator-chart slot
(the Chart constructor call of enhanced_app.js lines 388-427). -/
def mkIndicatorChart (st : AppState) (labels : List String) (ds : List Dataset)
    (title yTitle : String) : AppState :=
  { st with indicatorChart := some { labels := labels, datasets := ds,
                                     title := title, yAxisTitle := yTitle },
            liveIndicator := st.liveIndicator + 1 }

/-- enhanced_app.js lines 332-428, renderIndicatorChart: destroy any
previous widget, then switch on the currentIndicator global.  rsi uses
the backend series only when present and non-empty (otherwise datasets
and titles keep their empty initial values); macd has no backend series
and fabricates one value per data row from Math.random scaled to
[-1, 1); volume plots the volume column; any other indicator value
falls through with empty datasets.  A chart is constructed in every
case. -/
def renderIndicatorChart (st : AppState) (data : Body) : AppState :=
  let st := destroyIndicator st
  let labels := data.data.map (fun it => it.date)
  if st.currentIndicator == "rsi" then
    match data.rsi with
    | some r =>
      if r.length > 0 then
        mkIndicatorChart st labels
          [{ label := "RSI", data := r.map (fun it => it.value),
             borderColor := "#ff6b6b", fill := false }]
          "RSI 相对强弱指数" "RSI"
      else mkIndicatorChart st labels [] "" ""
    | none => mkIndicatorChart st labels [] "" ""
  else if st.currentIndicator == "macd" then
    let (draws, st2) := rngDraw st data.data.length
    mkIndicatorChart st2 labels
      [{ label := "MACD", data := draws.map (fun r => r * 2 - 1),
         borderColor := "#4ecdc4", fill := false }]
      "MACD 指标" "MACD"
  else if st.currentIndicator == "volume" then
    mkIndicatorChart st labels
      [{ label := "成交量", data := data.data.map (fun it => it.volume),
         borderColor := "#45b7d1", fill := true }]
      "成交量" "成交量"
  else mkIndicatorChart st labels [] "" ""

/-- The outcome of one fetch plus json() parse: either a parsed response
(HTTP ok flag, numeric status, parsed body) or a thrown transport/parse
exception with its message. -/
inductive FetchOutcome where
  | responded : Bool → Nat → Body → FetchOutcome
  | threw : String → FetchOutcome
deriving DecidableEq

/-- The condition of enhanced_app.js line 116: the response is handled
as an API failure when HTTP not-ok or the body's error field is truthy
(present and non-empty). -/
def apiFailure (ok : Bool) (body : Body) : Bool :=
  !ok || truthyStr body.error

/-- enhanced_app.js lines 96-103: the synchronous prefix of
fetchStockData that runs when the query is issued, before the await —
status set to loading and all four panels set to loading placeholders. -/
def issuePhase (st : AppState) (symbol : String) : AppState :=
  { st with statusClass := "status loading"
            statusText := "正在分析 " ++ symbol ++ "..."
            stockInfoBox := loadingDiv "加载股票信息中..."
            technicalSummary := loadingDiv "计算技术指标中..."
            tradingSignals := loadingDiv "生成交易信号中..."
            analysisBox := loadingDiv "AI分析中..." }

/-- enhanced_app.js lines 116-125: the API-failure branch — error status
with body.error or a synthesized HTTP-error text, and all four panels
set to failure placeholders.  Charts and window.currentStockData are not
touched. -/
def errorBranch (st : AppState) (body : Body) (status : Nat) : AppState :=
  let errorMsg := if truthyStr body.error then body.error.getD "" else "HTTP错误: " ++ toString status
  { st with statusClass := "status error"
            statusText := "❌ 错误: " ++ errorMsg
            stockInfoBox := loadingDiv "数据加载失败"
            technicalSummary := loadingDiv "技术分析失败"
            tradingSignals := loadingDiv "信号生成失败"
            analysisBox := loadingDiv "AI分析失败" }

/-- enhanced_app.js lines 128-143: the success-path statements in source
order.  Returns the state after the statements that executed, plus the
message of a thrown exception if one occurred: reading .summary off an
absent technical_indicators object throws a TypeError (the one
statically reachable throw on this path), after window.currentStockData,
the success status and the stock-info panel have already been mutated. -/
def successSteps (st : AppState) (symbol : String) (body : Body) : AppState × Option String :=
  let st := { st with currentStockData := some body }
  let st := { st with statusClass := "status success"
                      statusText := "✅ 成功获取 " ++ symbol ++ " 数据 (" ++
                        toString body.data.length ++ " 条记录)" }
  let st := updateStockInfo st body.stock_info
  match body.technical_indicators with
  | none => (st, some "TypeError: cannot read summary of undefined")
  | some ti =>
    let st := updateTechnicalSummary st ti.summary
    let st := updateTradingSignals st ti.signals
    let st := updateAnalysis st body.analysis
    let st := renderPriceChart st body
    let st := renderIndicatorChart st body
    (st, none)

/-- enhanced_app.js lines 145-149: the catch block updates the status
line only; the four panels keep whatever they showed when the exception
was raised. -/
def catchBranch (st : AppState) (msg : String) : AppState :=
  { st with statusClass := "status error", statusText := "❌ 请求异常: " ++ msg }

/-- The continuation of fetchStockData that runs when its response (or
exception) arrives.  The source has no request sequence number: this
continuation mutates the state unconditionally whenever it runs. -/
def completePhase (st : AppState) (symbol : String) (outcome : FetchOutcome) : AppState :=
  match outcome with
  | .threw msg => catchBranch st msg
  | .responded ok status body =>
    if apiFailure ok body then errorBranch st body status
    else
      match successSteps st symbol body with
      | (st2, none) => st2
      | (st2, some msg) => catchBranch st2 msg

/-- enhanced_app.js lines 89-150, fetchStockData, run to completion for
one given network outcome: the synchronous issue phase followed by the
completion phase.  period, interval and analysisType only enter the
request URL, not the view state. -/
def fetchStockData (st : AppState) (symbol _period _interval _analysisType : String)
    (outcome : FetchOutcome) : AppState :=
  completePhase (issuePhase st symbol) symbol outcome

/-- A stock_data request as issued: the four query parameters. -/
structure FetchCall where
  symbol : String
  period : String
  interval : String
  analysisType : String
deriving DecidableEq

/-- enhanced_app.js lines 17-27: the submit handler.  A symbol empty
after trim returns before touching anything and issues no fetch;
otherwise it reads the three selector values, issues the fetch and
synchronously runs its issue phase. -/
def handleSubmit (st : AppState) (inputValue periodSel intervalSel analysisSel : String) :
    AppState × Option FetchCall :=
  let symbol := jsTrim inputValue
  if symbol == "" then (st, none)
  else (issuePhase st symbol,
        some { symbol := symbol, period := periodSel, interval := intervalSel,
               analysisType := analysisSel })

/-- enhanced_app.js lines 30-41: the indicator-tab click handler — move
the active CSS class, set the currentIndicator global, and re-render the
indicator chart when a stock view is loaded (nothing else). -/
def handleTabClick (st : AppState) (indicator : String) : AppState :=
  let st := { st with activeTab := indicator, currentIndicator := indicator }
  match st.currentStockData with
  | some body => renderIndicatorChart st body
  | none => st

/-- enhanced_app.js lines 43-46: on page load, a truthy (non-empty)
symbol input triggers an automatic query with the trimmed input and the
fixed parameters 1mo, 1d, quick; the three selector values are read only
by the submit handler, never here (they are parameters of this model
solely to express that independence). -/
def autoQuery (inputValue _periodSel _intervalSel _analysisSel : String) : Option FetchCall :=
  if inputValue == "" then none
  else some { symbol := jsTrim inputValue, period := "1mo", interval := "1d",
              analysisType := "quick" }

/-- One row of /api/stock's points array (app.js). -/
structure PointV1 where
  time : String
  close : ℚ
deriving DecidableEq

/-- The summary object of /api/stock (app.js). -/
structure SummaryV1 where
  symbol : String
  first_time : String
  last_time : String
  first_close : ℚ
  last_close : ℚ
  change : ℚ
  change_pct : ℚ
  high : ℚ
  low : ℚ
deriving DecidableEq

/-- Parsed JSON body of /api/stock (app.js). -/
structure BodyV1 where
  error : Option String
  points : List PointV1
  summary : SummaryV1
  llm_analysis : Option String
deriving DecidableEq

/-- The mutable browser state touched by app.js: status line, summary
and analysis boxes, and the single chart slot with its live-instance
counter. -/
structure StateV1 where
  statusText : String
  summaryBox : String
  analysisBox : String
  chart : Option Chart
  liveChart : Nat
deriving DecidableEq

/-- Initial globals of app.js line 1: no chart. -/
def initStateV1 : StateV1 :=
  { statusText := "", summaryBox := "", analysisBox := "", chart := none, liveChart := 0 }

/-- Outcome of app.js's fetch plus json() parse. -/
inductive OutcomeV1 where
  | responded : Bool → Nat → BodyV1 → OutcomeV1
  | threw : String → OutcomeV1
deriving DecidableEq

/-- app.js lines 27-36: the summary box text, seven lines joined by
newlines, numbers fixed to two decimals. -/
def summaryLines (s : SummaryV1) : String :=
  String.intercalate "\n"
    [ "股票代码：" ++ s.symbol
    , "时间范围：" ++ s.first_time ++ "  ~  " ++ s.last_time
    , "起始收盘价：" ++ toFixedDigits 2 s.first_close
    , "最新收盘价：" ++ toFixedDigits 2 s.last_close
    , "涨跌：" ++ toFixedDigits 2 s.change ++ "  (" ++ toFixedDigits 2 s.change_pct ++ "%)"
    , "最高价：" ++ toFixedDigits 2 s.high
    , "最低价：" ++ toFixedDigits 2 s.low ]

/-- app.js lines 55-79, renderChart: destroy any previous widget and
build a line chart of closes over times (this chart passes no title,
y-axis title or border color; those fields are left empty). -/
def renderChart (st : StateV1) (labels : List String) (ds : List ℚ) (symbol : String) : StateV1 :=
  let st :=
    match st.chart with
    | some _ => { st with chart := none, liveChart := st.liveChart - 1 }
    | none => st
  { st with chart := some { labels := labels
                            datasets := [{ label := symbol ++ " 收盘价", data := ds,
                                           borderColor := "", fill := false }]
                            title := "", yAxisTitle := "" }
            liveChart := st.liveChart + 1 }

/-- app.js lines 8-10: the synchronous prefix of fetchStock — status and
both boxes set to loading texts. -/
def issueV1 (st : StateV1) (symbol : String) : StateV1 :=
  { st with statusText := "正在查询 " ++ symbol ++ "..."
            summaryBox := "加载中..."
            analysisBox := "加载中..." }

/-- The continuation of fetchStock after its response or exception
arrives (app.js lines 12-52).  The API-failure test is the same
truthiness test as the enhanced app; both its failure branch and its
catch reset the summary and analysis boxes to explicit no-data texts.
On success the chart is rebuilt and the analysis box falls back to a
hint when llm_analysis is falsy. -/
def completeV1 (st : StateV1) (symbol : String) (outcome : OutcomeV1) : StateV1 :=
  match outcome with
  | .threw msg =>
    { st with statusText := "❌ 请求异常：" ++ msg
              summaryBox := "暂无数据"
              analysisBox := "暂无分析" }
  | .responded ok status body =>
    if !ok || truthyStr body.error then
      let msg := if truthyStr body.error then body.error.getD "" else "HTTP 错误: " ++ toString status
      { st with statusText := "❌ 出错：" ++ msg
                summaryBox := "暂无数据"
                analysisBox := "暂无分析" }
    else
      let st := { st with statusText := "✅ 已获取 " ++ symbol ++ " 数据，共 " ++
                    toString body.points.length ++ " 条记录" }
      let st := { st with summaryBox := summaryLines body.summary }
      let st := renderChart st (body.points.map (fun p => p.time))
        (body.points.map (fun p => p.close)) body.summary.symbol
      let fallbackHint := "未启用 LLM 分析或调用失败。可以在 config.yaml 中开启 llm.enable。"
      { st with analysisBox := strOr body.llm_analysis fallbackHint }

/-- app.js lines 3-53, fetchStock, run to completion for one given
network outcome. -/
def fetchStock (st : StateV1) (symbol : String) (outcome : OutcomeV1) : StateV1 :=
  completeV1 (issueV1 st symbol) symbol outcome

/-- app.js lines 85-90: the submit handler — a symbol empty after trim
returns before touching anything; otherwise the fetch is issued (its
issue phase runs synchronously) and the trimmed symbol is the request. -/
def handleSubmitV1 (st : StateV1) (inputValue : String) : StateV1 × Option String :=
  let symbol := jsTrim inputValue
  if symbol == "" then (st, none) else (issueV1 st symbol, some symbol)

/-- app.js lines 92-94: on page load, a truthy (non-empty) symbol input
triggers an automatic query with the trimmed input. -/
def autoQueryV1 (inputValue : String) : Option String :=
  if inputValue == "" then none else some (jsTrim inputValue)

/-- A well-formed stock_info object used by the test fixtures. -/
def sampleInfo : StockInfo :=
  { error := none, name := some "Apple Inc.", sector := some "Technology",
    market_cap := .num 3000000000000, peRatioVal := .num 30,
    dividend_yield := .num (1 / 200), beta := .num 1, price := .num 190,
    exchange := some "NMS" }

/-- A well-formed signals object used by the test fixtures. -/
def sampleSignals : TradeSignals :=
  { overall_signal := "bullish", signal_strength := 7 / 10, signals := some ["RSI 中性"] }

/-- A well-formed technical_indicators object used by the test fixtures. -/
def sampleTI : TechIndicators := { summary := some "指标摘要", signals := some sampleSignals }

/-- A complete successful response body for symbol AAPL with one data
row. -/
def aaplBody : Body :=
  { symbol := "AAPL", period := "1mo", error := none,
    data := [⟨"2026-01-02", 10, 100⟩], rsi := some [⟨50⟩],
    stock_info := some sampleInfo, technical_indicators := some sampleTI,
    analysis := some "分析文本" }

/-- A complete successful response body for symbol MSFT with two data
rows. -/
def msftBody : Body :=
  { symbol := "MSFT", period := "1mo", error := none,
    data := [⟨"2026-01-02", 20, 200⟩, ⟨"2026-01-03", 21, 210⟩],
    rsi := some [⟨40⟩, ⟨41⟩],
    stock_info := some sampleInfo, technical_indicators := some sampleTI,
    analysis := some "分析文本" }

/-- The out-of-order interleaving of the spec's ordering scenario, run
against the source's continuations: query AAPL is issued, then query
MSFT; MSFT's response arrives first and AAPL's stale response arrives
last.  The source has no sequence check, so every continuation mutates
the state when it runs. -/
def c1Final : AppState :=
  let st1 := issuePhase initState "AAPL"
  let st2 := issuePhase st1 "MSFT"
  let st3 := completePhase st2 "MSFT" (.responded true 200 msftBody)
  completePhase st3 "AAPL" (.responded true 200 aaplBody)

/-- A state with the macd tab active and a Math.random stream that
always yields 7. -/
def macdState : AppState := { initState with currentIndicator := "macd", rngStream := fun _ => 7 }

/-- A state with the macd tab active and a Math.random stream that
yields its draw index, so successive draws differ. -/
def c4State : AppState := { initState with currentIndicator := "macd", rngStream := fun i => i }

/-- The dataset value lists of a chart slot, for comparing rendered
output. -/
def chartValues (oc : Option Chart) : Option (List (List ℚ)) :=
  oc.map (fun c => c.datasets.map (fun d => d.data))

/-- A 2xx response body with no error field and no technical_indicators
object (an absent optional field per spec section 4.1). -/
def c5Body : Body :=
  { symbol := "AAPL", period := "1mo", error := none,
    data := [⟨"2026-01-02", 10, 100⟩], rsi := some [⟨50⟩],
    stock_info := some sampleInfo, technical_indicators := none,
    analysis := some "分析文本" }

/-- A 2xx response body that carries an error field holding the empty
string. -/
def c6Body : Body := { aaplBody with error := some "" }

/-- A stock_info object whose numeric fields are missing or zero, with
the dividend yield undefined. -/
def c9Info : StockInfo :=
  { error := none, name := some "TestCo", sector := none, market_cap := .num 0,
    peRatioVal := .null, dividend_yield := .undef, beta := .num 0, price := .undef,
    exchange := none }

/-- A state with a loaded stock view, as left by a successful MSFT
query. -/
def c7State : AppState := fetchStockData initState "MSFT" "1mo" "1d" "quick" (.responded true 200 msftBody)

/-- The indicator chart the volume tab builds from a loaded body. -/
def volumeChart (body : Body) : Chart :=
  { labels := body.data.map (fun it => it.date)
    datasets := [{ label := "成交量", data := body.data.map (fun it => it.volume),
                   borderColor := "#45b7d1", fill := true }]
    title := "成交量", yAxisTitle := "成交量" }

/-- A well-formed /api/stock summary object used by the fixtures. -/
def v1Summary : SummaryV1 :=
  { symbol := "AAPL", first_time := "2026-01-02", last_time := "2026-01-03",
    first_close := 10, last_close := 11, change := 1, change_pct := 10, high := 11, low := 10 }

/-- A complete successful /api/stock response body. -/
def v1Body : BodyV1 :=
  { error := none, points := [⟨"2026-01-02", 10⟩, ⟨"2026-01-03", 11⟩],
    summary := v1Summary, llm_analysis := some "分析" }

/-- updateStockInfo only writes the stock-info panel. -/
theorem updateStockInfo_shape (st : AppState) (si : Option StockInfo) :
    ∃ s, updateStockInfo st si = { st with stockInfoBox := s } := by
  unfold updateStockInfo
  cases si with
  | none => exact ⟨_, rfl⟩
  | some info =>
    by_cases h : truthyStr info.error = true
    · exact ⟨_, if_pos h⟩
    · exact ⟨_, if_neg h⟩

/-- updateTradingSignals only writes the signals panel. -/
theorem updateTradingSignals_shape (st : AppState) (sig : Option TradeSignals) :
    ∃ s, updateTradingSignals st sig = { st with tradingSignals := s } := by
  unfold updateTradingSignals
  cases sig with
  | none => exact ⟨_, rfl⟩
  | some sg => rcases h : sg.signals with _ | list <;> simp only [h] <;> exact ⟨_, rfl⟩

/-- renderPriceChart only writes the price-chart slot and its live
counter. -/
theorem renderPriceChart_shape (st : AppState) (data : Body) :
    ∃ c n, renderPriceChart st data = { st with priceChart := c, livePrice := n } := by
  unfold renderPriceChart destroyPrice
  rcases h : st.priceChart with _ | ch <;> simp only [h] <;> exact ⟨_, _, rfl⟩

/-- renderIndicatorChart only writes the indicator-chart slot, its live
counter and the random cursor. -/
theorem renderIndicatorChart_shape (st : AppState) (data : Body) :
    ∃ c n m, renderIndicatorChart st data =
      { st with indicatorChart := c, liveIndicator := n, rngPos := m } := by
  unfold renderIndicatorChart destroyIndicator mkIndicatorChart rngDraw
  rcases h : st.indicatorChart with _ | ch <;> simp only [h] <;> split_ifs <;>
    first
      | exact ⟨_, _, _, rfl⟩
      | (rcases hr : data.rsi with _ | r <;> simp only [hr] <;>
          first
            | exact ⟨_, _, _, rfl⟩
            | (split_ifs <;> exact ⟨_, _, _, rfl⟩))

/-- updateStockInfo leaves the stored stock view alone. -/
theorem updateStockInfo_keeps_data (st : AppState) (si : Option StockInfo) :
    (updateStockInfo st si).currentStockData = st.currentStockData := by
  obtain ⟨s, hs⟩ := updateStockInfo_shape st si
  rw [hs]

/-- updateTradingSignals leaves the stored stock view alone. -/
theorem updateTradingSignals_keeps_data (st : AppState) (sig : Option TradeSignals) :
    (updateTradingSignals st sig).currentStockData = st.currentStockData := by
  obtain ⟨s, hs⟩ := updateTradingSignals_shape st sig
  rw [hs]

/-- renderPriceChart leaves the stored stock view alone. -/
theorem renderPriceChart_keeps_data (st : AppState) (data : Body) :
    (renderPriceChart st data).currentStockData = st.currentStockData := by
  obtain ⟨c, n, hs⟩ := renderPriceChart_shape st data
  rw [hs]

/-- renderIndicatorChart leaves the stored stock view alone. -/
theorem renderIndicatorChart_keeps_data (st : AppState) (data : Body) :
    (renderIndicatorChart st data).currentStockData = st.currentStockData := by
  obtain ⟨c, n, m, hs⟩ := renderIndicatorChart_shape st data
  rw [hs]

/-- updateTechnicalSummary leaves the stored stock view alone. -/
theorem updateTechnicalSummary_keeps_data (st : AppState) (x : Option String) :
    (updateTechnicalSummary st x).currentStockData = st.currentStockData := rfl

/-- updateAnalysis leaves the stored stock view alone. -/
theorem updateAnalysis_keeps_data (st : AppState) (x : Option String) :
    (updateAnalysis st x).currentStockData = st.currentStockData := rfl

/-- Whether or not the success path throws partway, the response body is
already stored in window.currentStockData. -/
theorem successSteps_currentStockData (st : AppState) (sym : String) (body : Body) :
    (successSteps st sym body).1.currentStockData = some body := by
  unfold successSteps
  rcases h : body.technical_indicators with _ | ti <;>
    simp only [h, renderIndicatorChart_keeps_data, renderPriceChart_keeps_data,
      updateAnalysis_keeps_data, updateTradingSignals_keeps_data,
      updateTechnicalSummary_keeps_data, updateStockInfo_keeps_data]

/-- Claim C1: only the most recently issued query's callback may mutate
the view state, enforced by a request sequence number.  The source has
no sequence number: in the interleaving where the query for AAPL is
issued, then the query for MSFT, and MSFT's response arrives before
AAPL's, the stale AAPL continuation runs last and overwrites the store,
so the final state reflects AAPL, not the later-issued MSFT — the claim
fails on this concrete run. -/
theorem c1_stale_response_overwrites_state :
    c1Final.currentStockData = some aaplBody ∧
    c1Final.statusText = "✅ 成功获取 AAPL 数据 (1 条记录)" ∧
    aaplBody.symbol = "AAPL" ∧ msftBody.symbol = "MSFT" :=
  ⟨rfl, rfl, rfl, rfl⟩

/-- Claim C2: every fetch outcome leaves each panel it set to a loading
placeholder in a terminal state.  On a thrown transport error the catch
block of fetchStockData updates only the status line: all four panels
still show the exact loading placeholders the issue phase wrote, so the
claim fails on this concrete run. -/
theorem c2_thrown_fetch_leaves_loading_panels :
    (fetchStockData initState "AAPL" "1mo" "1d" "quick" (.threw "Failed to fetch")).statusClass
      = "status error" ∧
    (fetchStockData initState "AAPL" "1mo" "1d" "quick" (.threw "Failed to fetch")).statusText
      = "❌ 请求异常: Failed to fetch" ∧
    (fetchStockData initState "AAPL" "1mo" "1d" "quick" (.threw "Failed to fetch")).stockInfoBox
      = loadingDiv "加载股票信息中..." ∧
    (fetchStockData initState "AAPL" "1mo" "1d" "quick" (.threw "Failed to fetch")).technicalSummary
      = loadingDiv "计算技术指标中..." ∧
    (fetchStockData initState "AAPL" "1mo" "1d" "quick" (.threw "Failed to fetch")).tradingSignals
      = loadingDiv "生成交易信号中..." ∧
    (fetchStockData initState "AAPL" "1mo" "1d" "quick" (.threw "Failed to fetch")).analysisBox
      = loadingDiv "AI分析中..." :=
  ⟨rfl, rfl, rfl, rfl, rfl, rfl⟩

/-- Claim C3: a missing MACD series must surface as an explicit
unavailable result, never a synthesized placeholder series.  The body
carries no MACD series (the API supplies none), yet rendering with the
macd tab active produces a chart holding a fabricated dataset whose
values 13 come from the Math.random stream (7 * 2 - 1), so the claim
fails on this concrete run. -/
theorem c3_macd_renders_fabricated_series :
    (renderIndicatorChart macdState msftBody).indicatorChart =
      some { labels := ["2026-01-02", "2026-01-03"],
             datasets := [{ label := "MACD", data := [13, 13],
                            borderColor := "#4ecdc4", fill := false }],
             title := "MACD 指标", yAxisTitle := "MACD" } := by
  simp [renderIndicatorChart, destroyIndicator, mkIndicatorChart, rngDraw, rngDrawList,
    macdState, initState, msftBody, String.reduceEq, String.reduceBEq]
  norm_num

/-- Claim C4: every renderer is idempotent — rendering twice with the
same data and indicator yields identical visual output.  With the macd
tab active the dataset is drawn from Math.random, so two consecutive
renders of the same body produce the dataset values -1 and then 1: the
outputs differ and the claim fails on this concrete run. -/
theorem c4_macd_rerender_differs :
    chartValues (renderIndicatorChart c4State aaplBody).indicatorChart = some [[-1]] ∧
    chartValues (renderIndicatorChart (renderIndicatorChart c4State aaplBody) aaplBody).indicatorChart
      = some [[1]] ∧
    (renderIndicatorChart c4State aaplBody).indicatorChart ≠
      (renderIndicatorChart (renderIndicatorChart c4State aaplBody) aaplBody).indicatorChart := by
  refine ⟨?_, ?_, ?_⟩ <;>
    simp [chartValues, renderIndicatorChart, destroyIndicator, mkIndicatorChart, rngDraw,
      rngDrawList, c4State, initState, aaplBody, String.reduceEq, String.reduceBEq] <;>
    norm_num

/-- Claim C5: a 2xx body with an absent optional field maps to an
explicit unavailable display and never throws.  With
technical_indicators absent the success path throws reading .summary of
undefined: the catch rewrites only the status line, and the summary,
signals and analysis panels are left showing their loading placeholders
while the body was already stored — the claim fails on this concrete
run. -/
theorem c5_missing_indicators_throw_leaves_loading :
    c5Body.error = none ∧ c5Body.technical_indicators = none ∧
    (fetchStockData initState "AAPL" "1mo" "1d" "quick" (.responded true 200 c5Body)).statusClass
      = "status error" ∧
    (fetchStockData initState "AAPL" "1mo" "1d" "quick" (.responded true 200 c5Body)).statusText
      = "❌ 请求异常: TypeError: cannot read summary of undefined" ∧
    (fetchStockData initState "AAPL" "1mo" "1d" "quick" (.responded true 200 c5Body)).technicalSummary
      = loadingDiv "计算技术指标中..." ∧
    (fetchStockData initState "AAPL" "1mo" "1d" "quick" (.responded true 200 c5Body)).tradingSignals
      = loadingDiv "生成交易信号中..." ∧
    (fetchStockData initState "AAPL" "1mo" "1d" "quick" (.responded true 200 c5Body)).analysisBox
      = loadingDiv "AI分析中..." ∧
    (fetchStockData initState "AAPL" "1mo" "1d" "quick" (.responded true 200 c5Body)).currentStockData
      = some c5Body :=
  ⟨rfl, rfl, rfl, rfl, rfl, rfl, rfl, rfl⟩

/-- Claim C6, counterexample: the claim says a response is treated as a
failure exactly when the status is non-2xx or the body contains an error
field.  A 2xx body whose error field holds the empty string contains an
error field, yet the truthiness test sends it down the success path: the
status shows success and the body is stored. -/
theorem c6_empty_error_field_takes_success_path :
    c6Body.error = some "" ∧
    (fetchStockData initState "AAPL" "1mo" "1d" "quick" (.responded true 200 c6Body)).statusClass
      = "status success" ∧
    (fetchStockData initState "AAPL" "1mo" "1d" "quick" (.responded true 200 c6Body)).currentStockData
      = some c6Body :=
  ⟨rfl, rfl, rfl⟩

/-- Claim C6 (amended): a response is treated as an API failure exactly
when the HTTP status is non-2xx or the body carries a non-empty (truthy)
error field; on such a failure the status line shows body.error when
truthy and otherwise a synthesized HTTP-error text, the panels are set
to explicit failure placeholders, and the charts and the stored stock
view are retained; otherwise the new body replaces the stored view (in
app.js, the chart is rebuilt from the new points).  Both fetch handlers
are covered. -/
theorem c6_failure_condition_amended (st : AppState) (sym p i a : String) (ok : Bool)
    (status : Nat) (body : Body) (st1 : StateV1) (sym1 : String) (ok1 : Bool)
    (status1 : Nat) (body1 : BodyV1) :
    (apiFailure ok body = true →
      (fetchStockData st sym p i a (.responded ok status body)).statusClass = "status error" ∧
      (fetchStockData st sym p i a (.responded ok status body)).statusText =
        "❌ 错误: " ++ (if truthyStr body.error then body.error.getD ""
                        else "HTTP错误: " ++ toString status) ∧
      (fetchStockData st sym p i a (.responded ok status body)).stockInfoBox =
        loadingDiv "数据加载失败" ∧
      (fetchStockData st sym p i a (.responded ok status body)).technicalSummary =
        loadingDiv "技术分析失败" ∧
      (fetchStockData st sym p i a (.responded ok status body)).tradingSignals =
        loadingDiv "信号生成失败" ∧
      (fetchStockData st sym p i a (.responded ok status body)).analysisBox =
        loadingDiv "AI分析失败" ∧
      (fetchStockData st sym p i a (.responded ok status body)).priceChart = st.priceChart ∧
      (fetchStockData st sym p i a (.responded ok status body)).indicatorChart = st.indicatorChart ∧
      (fetchStockData st sym p i a (.responded ok status body)).currentStockData =
        st.currentStockData) ∧
    (apiFailure ok body = false →
      (fetchStockData st sym p i a (.responded ok status body)).currentStockData = some body) ∧
    ((!ok1 || truthyStr body1.error) = true →
      (fetchStock st1 sym1 (.responded ok1 status1 body1)).statusText =
        "❌ 出错：" ++ (if truthyStr body1.error then body1.error.getD ""
                        else "HTTP 错误: " ++ toString status1) ∧
      (fetchStock st1 sym1 (.responded ok1 status1 body1)).summaryBox = "暂无数据" ∧
      (fetchStock st1 sym1 (.responded ok1 status1 body1)).analysisBox = "暂无分析" ∧
      (fetchStock st1 sym1 (.responded ok1 status1 body1)).chart = st1.chart) ∧
    ((!ok1 || truthyStr body1.error) = false →
      (fetchStock st1 sym1 (.responded ok1 status1 body1)).chart =
        some { labels := body1.points.map (fun pt => pt.time),
               datasets := [{ label := body1.summary.symbol ++ " 收盘价",
                              data := body1.points.map (fun pt => pt.close),
                              borderColor := "", fill := false }],
               title := "", yAxisTitle := "" }) := by
  refine ⟨?_, ?_, ?_, ?_⟩
  · intro h
    simp only [fetchStockData, completePhase]
    rw [if_pos h]
    exact ⟨rfl, rfl, rfl, rfl, rfl, rfl, rfl, rfl, rfl⟩
  · intro h
    simp only [fetchStockData, completePhase]
    rw [if_neg (by simp [h])]
    rcases hp : successSteps (issuePhase st sym) sym body with ⟨st2, msg⟩
    have hd := successSteps_currentStockData (issuePhase st sym) sym body
    rw [hp] at hd
    cases msg with
    | none => simpa using hd
    | some m => simpa [catchBranch] using hd
  · intro h
    simp only [fetchStock, completeV1]
    rw [if_pos h]
    exact ⟨rfl, rfl, rfl, rfl⟩
  · intro h
    simp only [fetchStock, completeV1]
    rw [if_neg (by simp [h])]
    rcases hc : (issueV1 st1 sym1).chart with _ | ch <;>
      simp only [renderChart, hc]

/-- Claim C6, witness: the amended theorem applied to a non-2xx response
and to a clean 2xx response at concrete inputs. -/
theorem c6_amended_witness :
    (fetchStockData initState "AAPL" "1mo" "1d" "quick" (.responded false 500 aaplBody)).statusClass
      = "status error" ∧
    (fetchStockData initState "AAPL" "1mo" "1d" "quick" (.responded false 500 aaplBody)).priceChart
      = initState.priceChart ∧
    (fetchStock initStateV1 "AAPL" (.responded false 500 v1Body)).summaryBox = "暂无数据" ∧
    (fetchStockData initState "AAPL" "1mo" "1d" "quick" (.responded true 200 aaplBody)).currentStockData
      = some aaplBody := by
  have h := c6_failure_condition_amended initState "AAPL" "1mo" "1d" "quick" false 500 aaplBody
    initStateV1 "AAPL" false 500 v1Body
  have h2 := c6_failure_condition_amended initState "AAPL" "1mo" "1d" "quick" true 200 aaplBody
    initStateV1 "AAPL" true 200 v1Body
  exact ⟨(h.1 (by decide)).1, (h.1 (by decide)).2.2.2.2.2.2.1,
    (h.2.2.1 (by decide)).2.1, h2.2.1 (by decide)⟩

/-- Claim C7: with a loaded stock view, an indicator-tab selection
changes only the active-indicator state and the indicator chart: the
price chart slot and its live counter, the status line, every text
panel and the stored view are unchanged, and selecting volume renders
the volume series of the loaded data. -/
theorem c7_tab_click_frame (st : AppState) (ind : String) (body : Body)
    (h : st.currentStockData = some body) :
    (handleTabClick st ind).priceChart = st.priceChart ∧
    (handleTabClick st ind).livePrice = st.livePrice ∧
    (handleTabClick st ind).statusClass = st.statusClass ∧
    (handleTabClick st ind).statusText = st.statusText ∧
    (handleTabClick st ind).stockInfoBox = st.stockInfoBox ∧
    (handleTabClick st ind).technicalSummary = st.technicalSummary ∧
    (handleTabClick st ind).tradingSignals = st.tradingSignals ∧
    (handleTabClick st ind).analysisBox = st.analysisBox ∧
    (handleTabClick st ind).currentStockData = st.currentStockData ∧
    (handleTabClick st ind).currentIndicator = ind ∧
    (ind = "volume" → (handleTabClick st ind).indicatorChart = some (volumeChart body)) := by
  have hm : handleTabClick st ind =
      renderIndicatorChart { st with activeTab := ind, currentIndicator := ind } body := by
    unfold handleTabClick
    dsimp only
    rw [h]
  obtain ⟨c, n, m, hs⟩ := renderIndicatorChart_shape
    { st with activeTab := ind, currentIndicator := ind } body
  have hfull : handleTabClick st ind =
      { st with activeTab := ind, currentIndicator := ind, indicatorChart := c,
                liveIndicator := n, rngPos := m } := by
    rw [hm, hs]
  refine ⟨?_, ?_, ?_, ?_, ?_, ?_, ?_, ?_, ?_, ?_, ?_⟩
  · rw [hfull]
  · rw [hfull]
  · rw [hfull]
  · rw [hfull]
  · rw [hfull]
  · rw [hfull]
  · rw [hfull]
  · rw [hfull]
  · rw [hfull]
  · rw [hfull]
  · intro hv
    subst hv
    rw [hm]
    unfold renderIndicatorChart destroyIndicator mkIndicatorChart
    dsimp only
    rcases hic : st.indicatorChart with _ | ch <;> simp [hic, volumeChart]

/-- Claim C7, witness: the frame theorem applied to the state left by a
successful MSFT query, selecting the volume tab. -/
theorem c7_witness :
    (handleTabClick c7State "volume").indicatorChart = some (volumeChart msftBody) ∧
    (handleTabClick c7State "volume").priceChart = c7State.priceChart ∧
    (handleTabClick c7State "volume").statusText = c7State.statusText := by
  have h := c7_tab_click_frame c7State "volume" msftBody rfl
  exact ⟨h.2.2.2.2.2.2.2.2.2.2 rfl, h.1, h.2.2.2.1⟩

/-- Claim C8: a form submission whose symbol input is empty after
trimming issues no fetch and changes no state, in both dashboards. -/
theorem c8_empty_symbol_noop (st : AppState) (st1 : StateV1)
    (inputValue periodSel intervalSel analysisSel : String)
    (h : jsTrim inputValue = "") :
    handleSubmit st inputValue periodSel intervalSel analysisSel = (st, none) ∧
    handleSubmitV1 st1 inputValue = (st1, none) := by
  constructor <;> simp [handleSubmit, handleSubmitV1, h]

/-- Claim C8, witness: a whitespace-only input trims to empty and is a
no-op in both dashboards. -/
theorem c8_witness :
    jsTrim "   " = "" ∧
    handleSubmit initState "   " "1mo" "1d" "quick" = (initState, none) ∧
    handleSubmitV1 initStateV1 "   " = (initStateV1, none) := by
  have h := c8_empty_symbol_noop initState initStateV1 "   " "1mo" "1d" "quick" (by decide)
  exact ⟨by decide, h.1, h.2⟩

/-- Claim C9, counterexample: the claim says every numeric stock-info
field that is null, undefined or 0 renders as N/A.  An undefined
dividend yield is multiplied by 100 first, which yields NaN, and the
panel renders the NaN-percent text instead of N/A. -/
theorem c9_undefined_dividend_yield_shows_nan :
    c9Info.dividend_yield = JNum.undef ∧
    (renderStockInfo c9Info).dividendYieldStr = "NaN%" ∧
    "NaN%" ≠ "N/A" :=
  ⟨rfl, rfl, by decide⟩

/-- Claim C9 (amended): the directly formatted numeric fields (the
price-earnings quotient, beta, price) render N/A when null, undefined or
exactly 0, market cap renders N/A when null, undefined or 0, and the
dividend yield renders N/A when 0 or null but, being multiplied by 100
before formatting, renders the NaN-percent text when undefined. -/
theorem c9_na_rendering_amended (si : StockInfo) :
    ((si.peRatioVal = .null ∨ si.peRatioVal = .undef ∨ si.peRatioVal = .num 0) →
      (renderStockInfo si).peRatioStr = "N/A") ∧
    ((si.beta = .null ∨ si.beta = .undef ∨ si.beta = .num 0) →
      (renderStockInfo si).betaStr = "N/A") ∧
    ((si.price = .null ∨ si.price = .undef ∨ si.price = .num 0) →
      (renderStockInfo si).priceStr = "N/A") ∧
    ((si.market_cap = .null ∨ si.market_cap = .undef ∨ si.market_cap = .num 0) →
      (renderStockInfo si).marketCapStr = "N/A") ∧
    ((si.dividend_yield = .null ∨ si.dividend_yield = .num 0) →
      (renderStockInfo si).dividendYieldStr = "N/A") ∧
    (si.dividend_yield = .undef →
      (renderStockInfo si).dividendYieldStr = "NaN%") := by
  refine ⟨?_, ?_, ?_, ?_, ?_, ?_⟩
  · rintro (h | h | h) <;> norm_num [renderStockInfo, formatValue, h]
  · rintro (h | h | h) <;> norm_num [renderStockInfo, formatValue, h]
  · rintro (h | h | h) <;> norm_num [renderStockInfo, formatValue, h]
  · rintro (h | h | h) <;> norm_num [renderStockInfo, formatMarketCap, h]
  · rintro (h | h) <;> norm_num [renderStockInfo, formatValue, jsMul100, h]
  · intro h
    norm_num [renderStockInfo, formatValue, jsMul100, h]
    rfl

/-- Claim C9, witness: the amended theorem applied to a concrete
stock-info object with a null price-earnings quotient, a zero market cap
and an undefined dividend yield. -/
theorem c9_amended_witness :
    (renderStockInfo c9Info).peRatioStr = "N/A" ∧
    (renderStockInfo c9Info).marketCapStr = "N/A" ∧
    (renderStockInfo c9Info).dividendYieldStr = "NaN%" := by
  have h := c9_na_rendering_amended c9Info
  exact ⟨h.1 (Or.inl rfl), h.2.2.2.1 (Or.inr (Or.inr rfl)), h.2.2.2.2.2 rfl⟩

/-- Claim C10: on page load, a non-empty symbol input triggers an
automatic query; in the enhanced app it always uses the fixed parameters
1mo, 1d and quick, independent of the selector values, and in the simple
app it queries the trimmed input. -/
theorem c10_auto_query_fixed_params (inputValue pSel iSel aSel pSel2 iSel2 aSel2 : String)
    (h : inputValue ≠ "") :
    autoQuery inputValue pSel iSel aSel =
      some { symbol := jsTrim inputValue, period := "1mo", interval := "1d",
             analysisType := "quick" } ∧
    autoQuery inputValue pSel iSel aSel = autoQuery inputValue pSel2 iSel2 aSel2 ∧
    autoQueryV1 inputValue = some (jsTrim inputValue) := by
  refine ⟨?_, ?_, ?_⟩ <;> simp [autoQuery, autoQueryV1, h]

/-- Claim C10, witness: the auto-query theorem applied to input AAPL
with two different selector configurations. -/
theorem c10_witness :
    "AAPL" ≠ "" ∧
    autoQuery "AAPL" "6mo" "1h" "full" =
      some { symbol := jsTrim "AAPL", period := "1mo", interval := "1d",
             analysisType := "quick" } ∧
    autoQuery "AAPL" "6mo" "1h" "full" = autoQuery "AAPL" "1y" "5m" "deep" := by
  have h := c10_auto_query_fixed_params "AAPL" "6mo" "1h" "full" "1y" "5m" "deep" (by decide)
  exact ⟨by decide, h.1, h.2.1⟩

end FinanceWeb
